import Mathlib

/-!
Formal model of the repository's fixture-generator scripts
(`scripts/constants.py`, `scripts/timestamps.py`, `scripts/order_ids.py`,
`scripts/transfer_ids.py`, `scripts/closed_orders.py`).

Modelling conventions:
- Python floats are modelled as exact rationals (`ℚ`); decimal literals such
  as `0.1` and `0.0026` denote their exact decimal values.
- `datetime` values are modelled by their Unix timestamp in seconds, with a
  fixed zero UTC offset; `datetime.fromtimestamp` rounds to whole
  microseconds exactly as CPython does (it stores integer microseconds).
- Calls to the process-wide random source are modelled by explicit draw
  parameters: each `random.random()` call is a parameter `r` constrained by
  `UnitDraw r` (`0 ≤ r < 1`), `random.choices` draws are index parameters.
-/

namespace KrakenScripts

/-- Range of one draw of `random.random()`: a value in `[0, 1)`. -/
def UnitDraw (r : ℚ) : Prop := 0 ≤ r ∧ r < 1

/-! ### constants.py -/

/-- Python `string.ascii_uppercase`. -/
def ascii_uppercase : String := "ABCDEFGHIJKLMNOPQRSTUVWXYZ"

/-- Python `string.ascii_lowercase`. -/
def ascii_lowercase : String := "abcdefghijklmnopqrstuvwxyz"

/-- Python `string.digits`. -/
def digits : String := "0123456789"

/-- `UPPER_ALPHA_NUMERIC = string.ascii_uppercase + string.digits`. -/
def UPPER_ALPHA_NUMERIC : String := ascii_uppercase ++ digits

/-- `ALL_ALPHA_NUMERIC = string.ascii_uppercase + string.ascii_lowercase + string.digits`. -/
def ALL_ALPHA_NUMERIC : String := ascii_uppercase ++ ascii_lowercase ++ digits

/-- `START = datetime(2020, 1, 1)`, modelled by its Unix timestamp (UTC). -/
def START : ℚ := 1577836800

/-- `END = datetime(2024, 1, 1)`, modelled by its Unix timestamp (UTC). -/
def END : ℚ := 1704067200

/-- `VOLUME_MIN = 0.1`. -/
def VOLUME_MIN : ℚ := 0.1

/-- `VOLUME_MAX = 1000`. -/
def VOLUME_MAX : ℚ := 1000

/-- `PRICE_MIN = 0.0001`. -/
def PRICE_MIN : ℚ := 0.0001

/-- `PRICE_MAX = 50_000`. -/
def PRICE_MAX : ℚ := 50000

/-- `OPEN_ORDER_STATUSES = ["pending", "open"]`. -/
def OPEN_ORDER_STATUSES : List String := ["pending", "open"]

/-- `OVER_ORDER_STATUSES = ["canceled", "closed", "expired"]`. -/
def OVER_ORDER_STATUSES : List String := ["canceled", "closed", "expired"]

/-- `ORDER_STATUSES = [*OPEN_ORDER_STATUSES, *OVER_ORDER_STATUSES]`. -/
def ORDER_STATUSES : List String := OPEN_ORDER_STATUSES ++ OVER_ORDER_STATUSES

/-! ### Python `random` primitives used by the scripts -/

/-- CPython `random.uniform(a, b)` computes `a + (b - a) * random()`; `r` is
the underlying `random()` draw. -/
def random_uniform (a b r : ℚ) : ℚ := a + (b - a) * r

/-- Model of `random.randint(a, b)`: a uniform integer in `[a, b]`. The
underlying draw `r ∈ [0, 1)` is mapped onto the `b - a + 1` values by floor
scaling (CPython uses rejection sampling over random bits; only the range of
the result matters here). -/
def random_randint (a b : ℕ) (r : ℚ) : ℕ := a + (⌊r * ((b : ℚ) - (a : ℚ) + 1)⌋).toNat

/-- Model of `random.choice(l)` for a list of strings: the draw `r ∈ [0, 1)`
selects index `⌊r * len(l)⌋` (CPython selects a uniform index into `l`). -/
def random_choice (l : List String) (r : ℚ) : String :=
  l.getD (⌊r * (l.length : ℚ)⌋).toNat ""

/-- Model of `random.choices(population, k=k)` for a string population: the
`i`-th draw selects the character at index `pick i` (reduced modulo the
population size, as CPython's `floor(random() * n)` always lands in range). -/
def random_choices (pop : String) (k : ℕ) (pick : ℕ → ℕ) : List Char :=
  (List.range k).map (fun i => pop.data.getD (pick i % pop.data.length) 'A')

/-! ### datetime round-trip -/

/-- Python `round`: round a rational to the nearest integer, ties to even. -/
def roundHalfEven (q : ℚ) : ℤ :=
  if q - ⌊q⌋ < 1/2 then ⌊q⌋
  else if 1/2 < q - ⌊q⌋ then ⌊q⌋ + 1
  else if ⌊q⌋ % 2 = 0 then ⌊q⌋ else ⌊q⌋ + 1

/-- Composition `datetime.fromtimestamp(t).timestamp()`: CPython's
`datetime.fromtimestamp` stores whole microseconds, rounding the fractional
second `frac` via `round(frac * 1e6)` (nearest, ties to even), and
`timestamp()` returns the stored value in seconds. The time zone is modelled
as a fixed zero offset. -/
def fromtimestamp_timestamp (t : ℚ) : ℚ := (roundHalfEven (t * 1000000) : ℚ) / 1000000

/-! ### timestamps.py -/

/-- `gen_random_timestamp(start, end)`; the two `datetime` arguments are
modelled by their timestamps, and `r` is the `random()` draw. Source:
`diff = end.timestamp() - start.timestamp(); rand = random() * diff;
return start.timestamp() + rand`. -/
def gen_random_timestamp (start end_ r : ℚ) : ℚ :=
  let diff := end_ - start
  let rand := r * diff
  start + rand

/-! ### order_ids.py -/

/-- `gen_segment(n)` from `order_ids.py`:
`"".join(choices(UPPER_ALPHA_NUMERIC, k=n))`; `pick` supplies the `n`
population indices drawn by `choices`. -/
def gen_segment (n : ℕ) (pick : ℕ → ℕ) : String :=
  String.mk (random_choices UPPER_ALPHA_NUMERIC n pick)

/-- `gen_order_id()` builds the f-string
`gen_segment(6) - gen_segment(5) - gen_segment(6)`; `p1`, `p2`, `p3` supply
the index draws of the three `choices` calls. -/
def gen_order_id (p1 p2 p3 : ℕ → ℕ) : String :=
  gen_segment 6 p1 ++ "-" ++ gen_segment 5 p2 ++ "-" ++ gen_segment 6 p3

/-- `gen_random_kraken_identifiers(n)`: a list of `n` order ids; `p1 j`,
`p2 j`, `p3 j` supply the draws of the `j`-th element. -/
def gen_random_kraken_identifiers (n : ℕ) (p1 p2 p3 : ℕ → ℕ → ℕ) : List String :=
  (List.range n).map (fun j => gen_order_id (p1 j) (p2 j) (p3 j))

/-! ### transfer_ids.py -/

namespace TransferIds

/-- `gen_segment(n)` from `transfer_ids.py`, over `ALL_ALPHA_NUMERIC`. -/
def gen_segment (n : ℕ) (pick : ℕ → ℕ) : String :=
  String.mk (random_choices ALL_ALPHA_NUMERIC n pick)

/-- `gen_random_kraken_transfer_identifiers(n)`: a list of `n` strings of the
form `gen_segment(7) - gen_segment(22)`. -/
def gen_random_kraken_transfer_identifiers (n : ℕ) (p1 p2 : ℕ → ℕ → ℕ) : List String :=
  (List.range n).map (fun j => gen_segment 7 (p1 j) ++ "-" ++ gen_segment 22 (p2 j))

end TransferIds

/-! ### the order-id pattern -/

/-- The regular expression of the spec,
`[A-Z0-9]{6}-[A-Z0-9]{5}-[A-Z0-9]{6}`, as a predicate on the character list
of the whole string: three segments of lengths 6, 5, 6 over the 36-character
alphabet, separated by dashes (the alphabet does not contain a dash, so the
decomposition is the unique one). -/
def matchesOrderIdPattern (s : String) : Prop :=
  ∃ l1 l2 l3 : List Char,
    s.data = l1 ++ '-' :: (l2 ++ '-' :: l3) ∧
    l1.length = 6 ∧ l2.length = 5 ∧ l3.length = 6 ∧
    (∀ c ∈ l1, c ∈ UPPER_ALPHA_NUMERIC.data) ∧
    (∀ c ∈ l2, c ∈ UPPER_ALPHA_NUMERIC.data) ∧
    (∀ c ∈ l3, c ∈ UPPER_ALPHA_NUMERIC.data)

/-! ### Python fixed-point formatting -/

/-- The last `d` decimal digits of `m`, most significant first, zero-padded
to exactly `d` characters. -/
def natDigitsFixed : ℕ → ℕ → List Char
  | 0, _ => []
  | d + 1, m => natDigitsFixed d (m / 10) ++ [Nat.digitChar (m % 10)]

/-- Python `format(x, "0.df")` (the script's `decimal_formatter`): fixed-point
rendering of `x` with exactly `d` digits after the decimal point, the value
rounded to `d` decimal places half-to-even. Float rounding is modelled as
exact, so the rounding acts on the exact rational value. -/
def format (x : ℚ) (d : ℕ) : String :=
  let n : ℤ := roundHalfEven (x * (10 : ℚ) ^ d)
  let m : ℕ := n.natAbs
  (if n < 0 then "-" else "") ++ Nat.repr (m / 10 ^ d) ++ "." ++
    String.mk (natDigitsFixed d (m % 10 ^ d))

/-- Number of characters after the last `.` of a string. -/
def fracDigitCount (s : String) : ℕ :=
  (s.data.reverse.takeWhile (fun c => c != '.')).length

/-! ### closed_orders.py -/

/-- The dictionary returned by `gen_random_closed_order`, one field per key.
`descr` is the empty Python dict `\x7b\x7d`, modelled as an empty association
list. -/
structure ClosedOrder where
  refid : String
  userref : ℕ
  status : String
  reason : Option String
  opentm : ℚ
  closetm : ℚ
  starttm : ℕ
  expiretm : ℕ
  descr : List (String × String)
  vol : String
  vol_exec : String
  cost : String
  fee : String
  price : String
  stopprice : String
  limitprice : String
  misc : String
  oflags : String
  trigger : String

/-- The seven draws one call of `gen_random_closed_order` takes from the
process-wide random source, in source order: the `random()` draws inside the
two `gen_random_timestamp` calls, the `random()` draws inside the three
`random.uniform` calls, and the draws behind `random.randint(3, 8)` and
`random.choice(OVER_ORDER_STATUSES)`. -/
structure OrderRands where
  rOpen : ℚ
  rClose : ℚ
  rPrice : ℚ
  rVolume : ℚ
  rVolExec : ℚ
  rDecimals : ℚ
  rStatus : ℚ

/-- All seven draws lie in `[0, 1)`. -/
def OrderRands.Valid (rs : OrderRands) : Prop :=
  UnitDraw rs.rOpen ∧ UnitDraw rs.rClose ∧ UnitDraw rs.rPrice ∧
    UnitDraw rs.rVolume ∧ UnitDraw rs.rVolExec ∧ UnitDraw rs.rDecimals ∧
    UnitDraw rs.rStatus

/-- Local `open = gen_random_timestamp(START, END)`. -/
def order_open (rs : OrderRands) : ℚ := gen_random_timestamp START END rs.rOpen

/-- Local `end = gen_random_timestamp(datetime.fromtimestamp(open), END)`:
the first argument round-trips through `datetime.fromtimestamp`, which
rounds `open` to whole microseconds. -/
def order_end (rs : OrderRands) : ℚ :=
  gen_random_timestamp (fromtimestamp_timestamp (order_open rs)) END rs.rClose

/-- Local `price = random.uniform(PRICE_MIN, PRICE_MAX)`. -/
def order_price (rs : OrderRands) : ℚ := random_uniform PRICE_MIN PRICE_MAX rs.rPrice

/-- Local `volume = random.uniform(VOLUME_MIN, VOLUME_MAX)`. -/
def order_volume (rs : OrderRands) : ℚ := random_uniform VOLUME_MIN VOLUME_MAX rs.rVolume

/-- Local `executed_volume = random.uniform(VOLUME_MIN, volume)`. -/
def order_executed_volume (rs : OrderRands) : ℚ :=
  random_uniform VOLUME_MIN (order_volume rs) rs.rVolExec

/-- Local `cost = price * executed_volume`. -/
def order_cost (rs : OrderRands) : ℚ := order_price rs * order_executed_volume rs

/-- Local `fee = 0.0026 * cost`. -/
def order_fee (rs : OrderRands) : ℚ := 0.0026 * order_cost rs

/-- Local `decimals = random.randint(3, 8)`. -/
def order_decimals (rs : OrderRands) : ℕ := random_randint 3 8 rs.rDecimals

/-- Local `status = random.choice(OVER_ORDER_STATUSES)`. -/
def order_status (rs : OrderRands) : String := random_choice OVER_ORDER_STATUSES rs.rStatus

/-- `gen_random_closed_order()`, field by field as in the returned dict. -/
def gen_random_closed_order (rs : OrderRands) : ClosedOrder where
  refid := "None"
  userref := 1
  status := order_status rs
  reason := if order_status rs = "canceled" then some "User requested" else none
  opentm := order_open rs
  closetm := order_end rs
  starttm := 0
  expiretm := 0
  descr := []
  vol := format (order_volume rs) (order_decimals rs)
  vol_exec := format (order_executed_volume rs) (order_decimals rs)
  cost := format (order_cost rs) (order_decimals rs)
  fee := format (order_fee rs) (order_decimals rs)
  price := format (order_price rs) (order_decimals rs)
  stopprice := "0.00000"
  limitprice := "0.00000"
  misc := ""
  oflags := "fciq"
  trigger := "index"

/-! ### the process-wide random source, seeded

Modelled from the spec: the scripts use Python's process-wide `random`
module, whose generator (CPython's Mersenne Twister) is not part of this
repository. Only two properties of it are relied on: `random.seed(n)` puts
the source into a state determined by `n` alone, and every subsequent
`random()` value is determined by that state. The stream below is a concrete
stand-in with those properties; its particular values are irrelevant. -/

/-- State of the process-wide random source: the seed it was last seeded
with and how many draws have been consumed since. -/
structure RandState where
  seed : ℕ
  idx : ℕ

/-- `random.seed(n)`: the state after seeding is a function of `n` alone. -/
def random_seed (n : ℕ) : RandState := ⟨n, 0⟩

/-- The `i`-th `random()` value of the stream determined by a seed: a
concrete stand-in sequence with values in `[0, 1)`. -/
def prngStream (seed i : ℕ) : ℚ :=
  (((seed * 1103515245 + i * 12345 + 12345) % 2147483648 : ℕ) : ℚ) / 2147483648

/-- The value of the `i`-th draw after state `s`. -/
def RandState.draw (s : RandState) (i : ℕ) : ℚ := prngStream s.seed (s.idx + i)

/-- The state after consuming `n` further draws. -/
def RandState.advance (s : RandState) (n : ℕ) : RandState := ⟨s.seed, s.idx + n⟩

/-- CPython `random.choices` maps each `random()` draw `r` to the population
index `⌊r * n⌋`; `pickFrom s n i` is that index for the `i`-th draw after
state `s`. -/
def pickFrom (s : RandState) (n : ℕ) (i : ℕ) : ℕ := (⌊s.draw i * (n : ℚ)⌋).toNat

/-- `gen_order_id()` run against the seeded source: its three `choices`
calls consume 6, 5 and 6 draws in order. -/
def gen_order_id_rand (s : RandState) : String × RandState :=
  (gen_order_id (pickFrom s 36) (pickFrom (s.advance 6) 36)
    (pickFrom (s.advance 11) 36), s.advance 17)

/-- `gen_random_timestamp(start, end)` run against the seeded source: one
`random()` draw. -/
def gen_random_timestamp_rand (start end_ : ℚ) (s : RandState) : ℚ × RandState :=
  (gen_random_timestamp start end_ (s.draw 0), s.advance 1)

/-- `gen_random_kraken_transfer_identifiers(n)` run against the seeded
source: each of the `n` elements consumes 7 then 22 draws. -/
def gen_random_kraken_transfer_identifiers_rand (n : ℕ) (s : RandState) :
    List String × RandState :=
  (TransferIds.gen_random_kraken_transfer_identifiers n
    (fun j => pickFrom (s.advance (29 * j)) 62)
    (fun j => pickFrom (s.advance (29 * j + 7)) 62),
   s.advance (29 * n))

/-- `gen_random_closed_order()` run against the seeded source: seven draws in
source order. -/
def gen_random_closed_order_rand (s : RandState) : ClosedOrder × RandState :=
  (gen_random_closed_order
    ⟨s.draw 0, s.draw 1, s.draw 2, s.draw 3, s.draw 4, s.draw 5, s.draw 6⟩,
   s.advance 7)

/-! ### helper lemmas and claim theorems -/

theorem data_append (s t : String) : (s ++ t).data = s.data ++ t.data := rfl

theorem length_random_choices (pop : String) (k : ℕ) (pick : ℕ → ℕ) :
    (random_choices pop k pick).length = k := by
  simp [random_choices]

theorem mem_random_choices (pop : String) (k : ℕ) (pick : ℕ → ℕ)
    (hpop : 0 < pop.data.length) :
    ∀ c ∈ random_choices pop k pick, c ∈ pop.data := by
  intro c hc
  simp only [random_choices, List.mem_map, List.mem_range] at hc
  obtain ⟨i, -, rfl⟩ := hc
  rw [List.getD_eq_getElem _ _ (Nat.mod_lt _ hpop)]
  exact List.getElem_mem _

/-! ### Claim C8 -/

/-- C8: every string returned by `gen_order_id` matches the pattern
`[A-Z0-9]{6}-[A-Z0-9]{5}-[A-Z0-9]{6}`: three dash-separated segments of
lengths 6, 5 and 6, each character drawn from the 36-symbol
uppercase-alphanumeric alphabet. -/
theorem C8_order_id_matches_pattern (p1 p2 p3 : ℕ → ℕ) :
    matchesOrderIdPattern (gen_order_id p1 p2 p3) := by
  have hlen : 0 < UPPER_ALPHA_NUMERIC.data.length := by decide
  refine ⟨random_choices UPPER_ALPHA_NUMERIC 6 p1,
          random_choices UPPER_ALPHA_NUMERIC 5 p2,
          random_choices UPPER_ALPHA_NUMERIC 6 p3, ?_, ?_, ?_, ?_, ?_, ?_, ?_⟩
  · show (gen_segment 6 p1 ++ "-" ++ gen_segment 5 p2 ++ "-" ++ gen_segment 6 p3).data = _
    simp only [data_append, gen_segment]
    simp [List.append_assoc]
  · exact length_random_choices _ _ _
  · exact length_random_choices _ _ _
  · exact length_random_choices _ _ _
  · exact mem_random_choices _ _ _ hlen
  · exact mem_random_choices _ _ _ hlen
  · exact mem_random_choices _ _ _ hlen


theorem length_natDigitsFixed : ∀ (d m : ℕ), (natDigitsFixed d m).length = d := by
  intro d
  induction d with
  | zero => intro m; rfl
  | succ d ih =>
      intro m
      simp [natDigitsFixed, ih]

theorem digitChar_ne_dot : ∀ k, k < 10 → (Nat.digitChar k != '.') = true := by decide

theorem natDigitsFixed_ne_dot :
    ∀ (d m : ℕ), ∀ c ∈ natDigitsFixed d m, (c != '.') = true := by
  intro d
  induction d with
  | zero => intro m c hc; simp [natDigitsFixed] at hc
  | succ d ih =>
      intro m c hc
      simp only [natDigitsFixed, List.mem_append, List.mem_singleton] at hc
      rcases hc with hc | rfl
      · exact ih _ c hc
      · exact digitChar_ne_dot _ (Nat.mod_lt _ (by norm_num))

theorem takeWhile_append_cons {α : Type} (p : α → Bool) (x : α) :
    ∀ (l1 l2 : List α), (∀ c ∈ l1, p c = true) → p x = false →
      List.takeWhile p (l1 ++ x :: l2) = l1 := by
  intro l1
  induction l1 with
  | nil => intro l2 _ hx; simp [List.takeWhile_cons, hx]
  | cons a t ih =>
      intro l2 h1 hx
      have ha : p a = true := h1 a (List.mem_cons_self a t)
      simp only [List.cons_append, List.takeWhile_cons, ha, if_true]
      rw [ih l2 (fun c hc => h1 c (List.mem_cons_of_mem a hc)) hx]

theorem fracDigitCount_concat (A F : List Char)
    (hF : ∀ c ∈ F, (c != '.') = true) :
    (List.takeWhile (fun c => c != '.') (A ++ '.' :: F).reverse).length =
      F.length := by
  rw [List.reverse_append, List.reverse_cons, List.append_assoc,
    List.singleton_append,
    takeWhile_append_cons (fun c => c != '.') '.' F.reverse A.reverse
      (fun c hc => hF c (List.mem_reverse.mp hc)) (by decide),
    List.length_reverse]

/-- `format x d` always carries exactly `d` digits after the decimal point. -/
theorem fracDigitCount_format (x : ℚ) (d : ℕ) :
    fracDigitCount (format x d) = d := by
  have hdata : (format x d).data =
      ((if roundHalfEven (x * (10 : ℚ) ^ d) < 0 then "-" else "").data ++
        (Nat.repr ((roundHalfEven (x * (10 : ℚ) ^ d)).natAbs / 10 ^ d)).data) ++
        '.' :: natDigitsFixed d ((roundHalfEven (x * (10 : ℚ) ^ d)).natAbs % 10 ^ d) := by
    show ((if _ then ("-" : String) else "") ++ _ ++ "." ++ _).data = _
    simp only [data_append, List.append_assoc]
    rfl
  unfold fracDigitCount
  rw [hdata, fracDigitCount_concat _ _ (natDigitsFixed_ne_dot _ _),
    length_natDigitsFixed]

/-- The half-to-even rounding never strays more than `1/2` from its input. -/
theorem abs_roundHalfEven_sub_le (q : ℚ) : |(roundHalfEven q : ℚ) - q| ≤ 1 / 2 := by
  have h0 : (⌊q⌋ : ℚ) ≤ q := Int.floor_le q
  have h1 : q < ⌊q⌋ + 1 := Int.lt_floor_add_one q
  unfold roundHalfEven
  split
  · rename_i h
    rw [abs_le]
    constructor <;> linarith
  · split
    · rename_i h h2
      rw [abs_le]
      push_cast
      constructor <;> linarith
    · split <;>
      · rename_i h h2 h3
        rw [abs_le]
        push_cast
        constructor <;> linarith

/-! ### helper lemmas about the random primitives -/

theorem random_uniform_le_left (a b r : ℚ) (hab : a ≤ b) (hr : UnitDraw r) :
    a ≤ random_uniform a b r := by
  unfold random_uniform
  have h0 : 0 ≤ (b - a) * r := mul_nonneg (by linarith) hr.1
  linarith

theorem random_uniform_le_right (a b r : ℚ) (hab : a ≤ b) (hr : UnitDraw r) :
    random_uniform a b r ≤ b := by
  unfold random_uniform
  have h0 : (b - a) * r ≤ (b - a) * 1 :=
    mul_le_mul_of_nonneg_left hr.2.le (by linarith)
  linarith

theorem random_randint_mem (a b : ℕ) (r : ℚ) (hab : a ≤ b) (hr : UnitDraw r) :
    a ≤ random_randint a b r ∧ random_randint a b r ≤ b := by
  unfold random_randint
  have hpos : (0 : ℚ) < (b : ℚ) - (a : ℚ) + 1 := by
    have : (a : ℚ) ≤ (b : ℚ) := by exact_mod_cast hab
    linarith
  have h0 : 0 ≤ ⌊r * ((b : ℚ) - (a : ℚ) + 1)⌋ :=
    Int.floor_nonneg.mpr (mul_nonneg hr.1 hpos.le)
  have h1 : ⌊r * ((b : ℚ) - (a : ℚ) + 1)⌋ < (b : ℤ) - (a : ℤ) + 1 := by
    rw [Int.floor_lt]
    push_cast
    calc r * ((b : ℚ) - (a : ℚ) + 1) < (b : ℚ) - (a : ℚ) + 1 :=
          mul_lt_of_lt_one_left hpos hr.2
      _ = _ := by norm_num
  omega

/-- Rounding a value to `d` decimal places moves it by at most half a unit in
the last rendered digit. -/
theorem format_rounding_bound (x : ℚ) (d : ℕ) :
    |(roundHalfEven (x * (10 : ℚ) ^ d) : ℚ) / (10 : ℚ) ^ d - x| ≤
      1 / (2 * (10 : ℚ) ^ d) := by
  have hp : (0 : ℚ) < (10 : ℚ) ^ d := by positivity
  have h := abs_roundHalfEven_sub_le (x * (10 : ℚ) ^ d)
  have heq : (roundHalfEven (x * (10 : ℚ) ^ d) : ℚ) / (10 : ℚ) ^ d - x =
      ((roundHalfEven (x * (10 : ℚ) ^ d) : ℚ) - x * (10 : ℚ) ^ d) / (10 : ℚ) ^ d := by
    field_simp
    ring
  rw [heq, abs_div, abs_of_pos hp, div_le_div_iff₀ hp (by positivity)]
  nlinarith [abs_nonneg ((roundHalfEven (x * (10 : ℚ) ^ d) : ℚ) - x * (10 : ℚ) ^ d)]

theorem unitDraw_zero : UnitDraw 0 := ⟨le_refl 0, by norm_num⟩

theorem zeroRands_valid : OrderRands.Valid ⟨0, 0, 0, 0, 0, 0, 0⟩ :=
  ⟨unitDraw_zero, unitDraw_zero, unitDraw_zero, unitDraw_zero, unitDraw_zero,
    unitDraw_zero, unitDraw_zero⟩

/-! ### Claims about gen_random_closed_order -/

/-- C2: in every generated closed order the underlying values satisfy
`cost = price * executed_volume` and `fee = 0.0026 * cost` exactly, the
formatted `cost` and `fee` string fields render exactly those products at the
record's chosen decimal precision, and that rendering rounds the exact value
by at most half a unit in the last decimal place. -/
theorem C2_cost_and_fee_products (rs : OrderRands) :
    order_cost rs = order_price rs * order_executed_volume rs ∧
    order_fee rs = 0.0026 * order_cost rs ∧
    (gen_random_closed_order rs).cost =
      format (order_price rs * order_executed_volume rs) (order_decimals rs) ∧
    (gen_random_closed_order rs).fee =
      format (0.0026 * order_cost rs) (order_decimals rs) ∧
    |(roundHalfEven (order_cost rs * (10 : ℚ) ^ order_decimals rs) : ℚ) /
        (10 : ℚ) ^ order_decimals rs - order_cost rs| ≤
      1 / (2 * (10 : ℚ) ^ order_decimals rs) ∧
    |(roundHalfEven (order_fee rs * (10 : ℚ) ^ order_decimals rs) : ℚ) /
        (10 : ℚ) ^ order_decimals rs - order_fee rs| ≤
      1 / (2 * (10 : ℚ) ^ order_decimals rs) :=
  ⟨rfl, rfl, rfl, rfl, format_rounding_bound _ _, format_rounding_bound _ _⟩

/-- C4: the executed volume lies between the configured minimum `0.1` and the
requested volume. -/
theorem C4_executed_volume_bounds (rs : OrderRands) (h : rs.Valid) :
    VOLUME_MIN ≤ order_executed_volume rs ∧
      order_executed_volume rs ≤ order_volume rs := by
  have hvol : VOLUME_MIN ≤ order_volume rs :=
    random_uniform_le_left _ _ _ (by norm_num [VOLUME_MIN, VOLUME_MAX]) h.2.2.2.1
  exact ⟨random_uniform_le_left _ _ _ hvol h.2.2.2.2.1,
    random_uniform_le_right _ _ _ hvol h.2.2.2.2.1⟩

/-- C4, witness: the bounds at the all-zero draw. -/
theorem C4_executed_volume_bounds_witness :
    VOLUME_MIN ≤ order_executed_volume ⟨0, 0, 0, 0, 0, 0, 0⟩ ∧
      order_executed_volume ⟨0, 0, 0, 0, 0, 0, 0⟩ ≤
        order_volume ⟨0, 0, 0, 0, 0, 0, 0⟩ :=
  C4_executed_volume_bounds ⟨0, 0, 0, 0, 0, 0, 0⟩ zeroRands_valid

/-- C5: the non-random fields of every generated record are the fixed
constants: refid is the literal string `None`, userref is `1`, the start and
expire timestamps are `0`, the description is empty, the stop and limit price
strings are the zero-valued constants, misc is empty, and the flag and
trigger fields are the fixed constants. -/
theorem C5_constant_fields (rs : OrderRands) :
    (gen_random_closed_order rs).refid = "None" ∧
    (gen_random_closed_order rs).userref = 1 ∧
    (gen_random_closed_order rs).starttm = 0 ∧
    (gen_random_closed_order rs).expiretm = 0 ∧
    (gen_random_closed_order rs).descr = [] ∧
    (gen_random_closed_order rs).stopprice = "0.00000" ∧
    (gen_random_closed_order rs).limitprice = "0.00000" ∧
    (gen_random_closed_order rs).misc = "" ∧
    (gen_random_closed_order rs).oflags = "fciq" ∧
    (gen_random_closed_order rs).trigger = "index" :=
  ⟨rfl, rfl, rfl, rfl, rfl, rfl, rfl, rfl, rfl, rfl⟩

/-- C6: one decimal precision is drawn from `[3, 8]` per record, and the five
formatted string fields `vol`, `vol_exec`, `cost`, `fee`, `price` all carry
exactly that many digits after the decimal point. -/
theorem C6_uniform_precision (rs : OrderRands) (h : rs.Valid) :
    3 ≤ order_decimals rs ∧ order_decimals rs ≤ 8 ∧
    fracDigitCount (gen_random_closed_order rs).vol = order_decimals rs ∧
    fracDigitCount (gen_random_closed_order rs).vol_exec = order_decimals rs ∧
    fracDigitCount (gen_random_closed_order rs).cost = order_decimals rs ∧
    fracDigitCount (gen_random_closed_order rs).fee = order_decimals rs ∧
    fracDigitCount (gen_random_closed_order rs).price = order_decimals rs := by
  obtain ⟨h3, h8⟩ := random_randint_mem 3 8 rs.rDecimals (by norm_num) h.2.2.2.2.2.1
  exact ⟨h3, h8, fracDigitCount_format _ _, fracDigitCount_format _ _,
    fracDigitCount_format _ _, fracDigitCount_format _ _, fracDigitCount_format _ _⟩

/-- C6, witness: the precision facts at the all-zero draw. -/
theorem C6_uniform_precision_witness :
    3 ≤ order_decimals ⟨0, 0, 0, 0, 0, 0, 0⟩ ∧
    order_decimals ⟨0, 0, 0, 0, 0, 0, 0⟩ ≤ 8 ∧
    fracDigitCount (gen_random_closed_order ⟨0, 0, 0, 0, 0, 0, 0⟩).vol =
      order_decimals ⟨0, 0, 0, 0, 0, 0, 0⟩ ∧
    fracDigitCount (gen_random_closed_order ⟨0, 0, 0, 0, 0, 0, 0⟩).vol_exec =
      order_decimals ⟨0, 0, 0, 0, 0, 0, 0⟩ ∧
    fracDigitCount (gen_random_closed_order ⟨0, 0, 0, 0, 0, 0, 0⟩).cost =
      order_decimals ⟨0, 0, 0, 0, 0, 0, 0⟩ ∧
    fracDigitCount (gen_random_closed_order ⟨0, 0, 0, 0, 0, 0, 0⟩).fee =
      order_decimals ⟨0, 0, 0, 0, 0, 0, 0⟩ ∧
    fracDigitCount (gen_random_closed_order ⟨0, 0, 0, 0, 0, 0, 0⟩).price =
      order_decimals ⟨0, 0, 0, 0, 0, 0, 0⟩ :=
  C6_uniform_precision ⟨0, 0, 0, 0, 0, 0, 0⟩ zeroRands_valid

/-- C7: the status of every generated record is one of `canceled`, `closed`,
`expired`, and the cancellation reason is present (the fixed string
`User requested`) exactly when the status is `canceled`. -/
theorem C7_status_and_reason (rs : OrderRands) (h : rs.Valid) :
    ((gen_random_closed_order rs).status = "canceled" ∨
     (gen_random_closed_order rs).status = "closed" ∨
     (gen_random_closed_order rs).status = "expired") ∧
    ((gen_random_closed_order rs).reason = some "User requested" ↔
      (gen_random_closed_order rs).status = "canceled") := by
  have hr := h.2.2.2.2.2.2
  have hs : order_status rs = "canceled" ∨ order_status rs = "closed" ∨
      order_status rs = "expired" := by
    unfold order_status random_choice
    have hlen : OVER_ORDER_STATUSES.length = 3 := rfl
    rw [hlen]
    have h0 : 0 ≤ ⌊rs.rStatus * ((3 : ℕ) : ℚ)⌋ :=
      Int.floor_nonneg.mpr (mul_nonneg hr.1 (by norm_num))
    have h1 : ⌊rs.rStatus * ((3 : ℕ) : ℚ)⌋ < 3 := by
      rw [Int.floor_lt]
      push_cast
      nlinarith [hr.1, hr.2]
    have hcase : (⌊rs.rStatus * ((3 : ℕ) : ℚ)⌋).toNat = 0 ∨
        (⌊rs.rStatus * ((3 : ℕ) : ℚ)⌋).toNat = 1 ∨
        (⌊rs.rStatus * ((3 : ℕ) : ℚ)⌋).toNat = 2 := by omega
    rcases hcase with hc | hc | hc <;> rw [hc] <;> simp [OVER_ORDER_STATUSES]
  have hstat : (gen_random_closed_order rs).status = order_status rs := rfl
  have hreas : (gen_random_closed_order rs).reason =
      (if order_status rs = "canceled" then some "User requested" else none) := rfl
  rw [hstat, hreas]
  rcases hs with h | h | h <;> rw [h] <;> simp

/-- C7, witness: status and reason at the all-zero draw. -/
theorem C7_status_and_reason_witness :
    ((gen_random_closed_order ⟨0, 0, 0, 0, 0, 0, 0⟩).status = "canceled" ∨
     (gen_random_closed_order ⟨0, 0, 0, 0, 0, 0, 0⟩).status = "closed" ∨
     (gen_random_closed_order ⟨0, 0, 0, 0, 0, 0, 0⟩).status = "expired") ∧
    ((gen_random_closed_order ⟨0, 0, 0, 0, 0, 0, 0⟩).reason = some "User requested" ↔
      (gen_random_closed_order ⟨0, 0, 0, 0, 0, 0, 0⟩).status = "canceled") :=
  C7_status_and_reason ⟨0, 0, 0, 0, 0, 0, 0⟩ zeroRands_valid

/-- C3, failing evaluation: with the first timestamp draw
`rOpen = 1 / 504921600000000` (so `open` lands a quarter of a microsecond
after the window start) and the second draw `rClose = 0`, the generated
record has `closetm` strictly below `opentm`: the second
`gen_random_timestamp` call receives `datetime.fromtimestamp(open)`, whose
microsecond storage rounds `open` down, and a zero draw returns that rounded
value unchanged. All seven draws are valid `random()` values. -/
theorem C3_closetm_lt_opentm :
    OrderRands.Valid ⟨1 / 504921600000000, 0, 0, 0, 0, 0, 0⟩ ∧
    (gen_random_closed_order ⟨1 / 504921600000000, 0, 0, 0, 0, 0, 0⟩).closetm <
      (gen_random_closed_order ⟨1 / 504921600000000, 0, 0, 0, 0, 0, 0⟩).opentm := by
  have e1 : order_open ⟨1 / 504921600000000, 0, 0, 0, 0, 0, 0⟩ =
      1577836800 + 1 / 4000000 := by
    show START + 1 / 504921600000000 * (END - START) = _
    norm_num [START, END]
  have hfloor : ⌊(1577836800 + 1 / 4000000 : ℚ) * 1000000⌋ = 1577836800000000 := by
    rw [Int.floor_eq_iff]
    constructor <;> norm_num
  have hround : roundHalfEven ((1577836800 + 1 / 4000000 : ℚ) * 1000000) =
      1577836800000000 := by
    unfold roundHalfEven
    rw [hfloor, if_pos (by norm_num)]
  have hft : fromtimestamp_timestamp (1577836800 + 1 / 4000000) = 1577836800 := by
    unfold fromtimestamp_timestamp
    rw [hround]
    norm_num
  have e2 : order_end ⟨1 / 504921600000000, 0, 0, 0, 0, 0, 0⟩ =
      fromtimestamp_timestamp (order_open ⟨1 / 504921600000000, 0, 0, 0, 0, 0, 0⟩) := by
    show fromtimestamp_timestamp (order_open _) +
        0 * (END - fromtimestamp_timestamp (order_open _)) = _
    ring
  refine ⟨⟨⟨by norm_num, by norm_num⟩, unitDraw_zero, unitDraw_zero, unitDraw_zero,
    unitDraw_zero, unitDraw_zero, unitDraw_zero⟩, ?_⟩
  show order_end _ < order_open _
  rw [e2, e1, hft]
  norm_num

/-- C9: seeding the process-wide source with the same seed before two calls
of any of the four generators yields identical outputs: each generator's
output is a function of the random-source state alone. -/
theorem C9_determinism_under_seed (a b : ℕ) (hab : a = b)
    (n : ℕ) (start end_ : ℚ) :
    (gen_order_id_rand (random_seed a)).1 = (gen_order_id_rand (random_seed b)).1 ∧
    (gen_random_kraken_transfer_identifiers_rand n (random_seed a)).1 =
      (gen_random_kraken_transfer_identifiers_rand n (random_seed b)).1 ∧
    (gen_random_timestamp_rand start end_ (random_seed a)).1 =
      (gen_random_timestamp_rand start end_ (random_seed b)).1 ∧
    (gen_random_closed_order_rand (random_seed a)).1 =
      (gen_random_closed_order_rand (random_seed b)).1 := by
  subst hab
  exact ⟨rfl, rfl, rfl, rfl⟩

/-- C9, witness: determinism at seed `42`, two transfer identifiers, and the
configured window. -/
theorem C9_determinism_under_seed_witness :
    (gen_order_id_rand (random_seed 42)).1 = (gen_order_id_rand (random_seed 42)).1 ∧
    (gen_random_kraken_transfer_identifiers_rand 2 (random_seed 42)).1 =
      (gen_random_kraken_transfer_identifiers_rand 2 (random_seed 42)).1 ∧
    (gen_random_timestamp_rand START END (random_seed 42)).1 =
      (gen_random_timestamp_rand START END (random_seed 42)).1 ∧
    (gen_random_closed_order_rand (random_seed 42)).1 =
      (gen_random_closed_order_rand (random_seed 42)).1 :=
  C9_determinism_under_seed 42 42 rfl 2 START END

/-! ### Claims C1 and C10 -/

/-- C1, counterexample: at `start = end = 0` with draw `r = 0` the claim's
hypotheses hold (`start ≤ end`, `r` a unit draw) but the result `0` is not
strictly less than `end = 0`, so the result does not lie in the empty
half-open interval `[0, 0)`. -/
theorem C1_counterexample :
    (0 : ℚ) ≤ (0 : ℚ) ∧ UnitDraw 0 ∧ ¬ gen_random_timestamp 0 0 0 < 0 := by
  refine ⟨le_refl 0, ⟨le_refl 0, by norm_num⟩, ?_⟩
  simp [gen_random_timestamp]

/-- C1, amended: for every call `gen_random_timestamp(start, end)` with
`start < end` (strictly), the result lies in the half-open interval
`[start, end)`: it is at least `start` and strictly less than `end`. -/
theorem C1_result_in_half_open_interval (start end_ r : ℚ)
    (hlt : start < end_) (hr : UnitDraw r) :
    start ≤ gen_random_timestamp start end_ r ∧
      gen_random_timestamp start end_ r < end_ := by
  constructor
  · show start ≤ start + r * (end_ - start)
    have h0 : 0 ≤ r * (end_ - start) := mul_nonneg hr.1 (by linarith)
    linarith
  · show start + r * (end_ - start) < end_
    have h1 : r * (end_ - start) < end_ - start :=
      mul_lt_of_lt_one_left (by linarith) hr.2
    linarith

/-- C1, witness: the amended theorem at `start = 0`, `end = 1`, `r = 0`. -/
theorem C1_result_in_half_open_interval_witness :
    (0 : ℚ) ≤ gen_random_timestamp 0 1 0 ∧ gen_random_timestamp 0 1 0 < 1 :=
  C1_result_in_half_open_interval 0 1 0 (by norm_num) ⟨le_refl 0, by norm_num⟩

/-- C10: in the degenerate case `start = end`, `gen_random_timestamp` returns
exactly `start` for every draw `r` (the difference is zero, so the scaled
draw contributes nothing); it does not fail. -/
theorem C10_degenerate_interval_returns_start (start r : ℚ) :
    gen_random_timestamp start start r = start := by
  unfold gen_random_timestamp
  ring

end KrakenScripts
